import Mathlib

/-!
Verification development for the `ImageResizer` repository (`src/resize.py`).

The Python program is embedded shallowly:

* `pathlib.Path` values become `PyPath` (a POSIX path: an absoluteness flag
  plus the list of name components; `pathlib` strips `.` components, so
  `Path('.')` has no components).  `Path.relative_to`, `Path.joinpath`,
  `Path.parent` and `Path.mkdir(parents=True)` are embedded after the purely
  lexical semantics of CPython's `pathlib` (3.8-3.11 line), which the script
  relies on.
* The file system is explicit state: `FS` records the set of existing
  directories and the image files written so far.  Reading a source image is
  an oracle `decode : PyPath -> Option PILImage` (PIL's `Image.open`: `none`
  models an unreadable or corrupt file).
* The external resize primitives of the `python-resize-image` library are not
  part of this repository; they are modelled from the spec's external
  collaborator contract (section 6) at the level of output dimensions.
* `multiprocessing.Pool.apply_async` runs each `worker` call isolated in a
  pool process; a raised exception is captured into the task's `AsyncResult`,
  which the script never reads, and the completion callback is not invoked
  for it.  The dispatch loop is embedded as a fold over the work list (the
  spec fixes no completion order; only the aggregates are observable), with
  each item's outcome recorded as success or as a silently dropped error.
* Wall-clock time and the exact progress-bar text are not modelled; the model
  counts how many times the progress callback rendered.
-/

namespace ImageResizer

/-! ## Paths (`pathlib` embedding) -/

/-- A POSIX `pathlib.Path`: `root` is true for absolute paths, `parts` are the
name components (`pathlib` drops `.`, so `Path('.')` is `⟨false, []⟩`). -/
structure PyPath where
  root : Bool
  parts : List String
deriving Repr, DecidableEq

/-- The comparison key CPython's `relative_to` uses: `[drv, root] + parts[1:]`,
with the empty drive on POSIX rendered as a leading `""` pseudo-part for
absolute paths. -/
def allParts (p : PyPath) : List String :=
  if p.root then "" :: "/" :: p.parts else p.parts

/-- `self.relative_to(other)` (CPython `pathlib`, purely lexical): fails when
`other`'s part list is not a prefix of `self`'s; `Path('.')` has zero parts,
so every relative path is returned unchanged and every absolute path fails. -/
def relativeTo (self other : PyPath) : Option PyPath :=
  let absSelf := allParts self
  let absOther := allParts other
  let n := absOther.length
  if n = 0 ∧ self.root then none
  else if absSelf.take n = absOther then
    some ⟨decide (n = 1) && self.root, absSelf.drop n⟩
  else none

/-- `a.joinpath(b)`: appends `b`'s components; an absolute `b` replaces `a`. -/
def joinpath (a b : PyPath) : PyPath :=
  if b.root then b else ⟨a.root, a.parts ++ b.parts⟩

/-- `p.parent`: drop the last component (the parent of `/` and of `.` is
itself, as in `pathlib`). -/
def PyPath.parent (p : PyPath) : PyPath :=
  ⟨p.root, p.parts.dropLast⟩

/-- All prefixes of a path, shortest first: the directories
`mkdir(parents=True)` ensures exist on the way down to `p`. -/
def ancestors (p : PyPath) : List PyPath :=
  (List.range (p.parts.length + 1)).map (fun i => ⟨p.root, p.parts.take i⟩)

/-! ## File-system state and errors -/

/-- An in-memory PIL image: its pixel dimensions and its detected codec
format (`img.format`), which the script reuses when saving. -/
structure PILImage where
  width : Int
  height : Int
  format : String
deriving Repr, DecidableEq

/-- The exceptions the script can raise.  `assertionError` is the
`assert width or height` in `resize_image`; `decodeError` is a failing
`Image.open`; `valueError` is `relative_to` on a non-prefix;
`fileExistsError` is `mkdir` on an existing directory. -/
inductive PyError where
  | assertionError : PyError
  | decodeError : PyError
  | valueError : PyError
  | fileExistsError : PyError
deriving Repr, DecidableEq

/-- Explicit file-system state: the directories that exist and the resized
images written out so far (path paired with the saved image). -/
structure FS where
  dirs : List PyPath
  files : List (PyPath × PILImage)
deriving Repr, DecidableEq

/-- `d.mkdir(parents=True)`: raises `FileExistsError` if `d` itself exists,
otherwise creates every missing ancestor and `d`. -/
def mkdir_parents (fs : FS) (d : PyPath) : Except PyError FS :=
  if d ∈ fs.dirs then .error .fileExistsError
  else .ok { fs with dirs := fs.dirs ++ (ancestors d).filter (fun a => !decide (a ∈ fs.dirs)) }

/-- Lines 115-116 of `resize.py`:
`if not final_path.parent.exists(): final_path.parent.mkdir(parents=True)`. -/
def ensure_parent (fs : FS) (p : PyPath) : Except PyError FS :=
  if p.parent ∈ fs.dirs then .ok fs else mkdir_parents fs p.parent

/-! ## Resize policy (lines 97 and 103-108) -/

/-- Python truthiness of the optional `--width`/`--height` integers: `None`
and `0` are falsy. -/
def truthy : Option Int → Bool
  | none => false
  | some n => n != 0

/-- The three-way strategy choice of lines 103-108, as a tagged value
recording which external primitive is invoked with which arguments. -/
inductive PolicyCall where
  | thumbnail : Int → Int → PolicyCall
  | byWidth : Int → PolicyCall
  | byHeight : Int → PolicyCall
deriving Repr, DecidableEq

/-- `if width and height: ... elif width: ... else: ...` (lines 103-108).
The `else` branch passes `height`, which the assertion on line 97 guarantees
is truthy whenever this is reached. -/
def policyCall (width height : Option Int) : PolicyCall :=
  if truthy width && truthy height then .thumbnail (width.getD 0) (height.getD 0)
  else if truthy width then .byWidth (width.getD 0)
  else .byHeight (height.getD 0)

/-- The dimensions a `PolicyCall` requests from the external primitive. -/
def callDims : PolicyCall → List Int
  | .thumbnail w h => [w, h]
  | .byWidth w => [w]
  | .byHeight h => [h]

/-- Modelled from the spec: `resizeimage.resize_thumbnail`, the external
contain/thumbnail primitive (spec section 4.2/6) — the source is scaled
proportionally to fit within the box without cropping and the result's
dimensions are exactly the requested box.  Only the output dimensions are
modelled; the format is carried over unchanged. -/
def resize_thumbnail (img : PILImage) (w h : Int) : PILImage :=
  { img with width := w, height := h }

/-- Modelled from the spec: `resizeimage.resize_width`, the external
proportional-by-width primitive — output width is the requested width and the
height is derived from the source aspect ratio (floor rounding chosen for the
model; the spec asks only for "within rounding"). -/
def resize_width (img : PILImage) (w : Int) : PILImage :=
  { img with width := w, height := img.height * w / img.width }

/-- Modelled from the spec: `resizeimage.resize_height`, the external
proportional-by-height primitive, symmetric to `resize_width`. -/
def resize_height (img : PILImage) (h : Int) : PILImage :=
  { img with width := img.width * h / img.height, height := h }

/-- Dispatch a `PolicyCall` to the modelled external primitive. -/
def runPolicy (img : PILImage) : PolicyCall → PILImage
  | .thumbnail w h => resize_thumbnail img w h
  | .byWidth w => resize_width img w
  | .byHeight h => resize_height img h

/-! ## `resize_image` (lines 96-120) -/

/-- `resize_image(file, indir, outdir, width, height)`, lines 96-120, in
source order: assert at least one dimension; open and decode; pick and apply
the resize strategy; compute the mirrored output path; ensure its parent
directory exists; save.  Returns the raised exception or the written path and
image, together with the file system left behind. -/
def resize_image (decode : PyPath → Option PILImage) (fs : FS)
    (file indir outdir : PyPath) (width height : Option Int) :
    Except PyError (PyPath × PILImage) × FS :=
  if truthy width || truthy height then
    match decode file with
    | none => (.error .decodeError, fs)
    | some img =>
      let resized := runPolicy img (policyCall width height)
      match relativeTo file indir with
      | none => (.error .valueError, fs)
      | some rel =>
        let final_path := joinpath outdir rel
        match ensure_parent fs final_path with
        | .error e => (.error e, fs)
        | .ok fs1 => (.ok (final_path, resized), { fs1 with files := fs1.files ++ [(final_path, resized)] })
  else (.error .assertionError, fs)

/-- The outcome `resize_image` reports for one item, as a function of the
item alone: the file-system state never influences success or the error kind
(`ensure_parent` cannot fail thanks to the existence guard). -/
def itemOutcome (decode : PyPath → Option PILImage)
    (file indir outdir : PyPath) (width height : Option Int) :
    Except PyError (PyPath × PILImage) :=
  if truthy width || truthy height then
    match decode file with
    | none => .error .decodeError
    | some img =>
      match relativeTo file indir with
      | none => .error .valueError
      | some rel => .ok (joinpath outdir rel, runPolicy img (policyCall width height))
  else .error .assertionError

/-- Extract the resized image from a `resize_image` result. -/
def resizedResult (r : Except PyError (PyPath × PILImage) × FS) : Option PILImage :=
  match r.1 with
  | .ok pr => some pr.2
  | .error _ => none

/-- Whether an `Except` is a success. -/
def exceptOk {ε α : Type} : Except ε α → Bool
  | .ok _ => true
  | .error _ => false

/-! ## Directory enumeration (lines 60-63, `pathlib.Path.glob`)

`directory.glob(pattern)` splits the pattern on `/` and matches each
component against one name with `fnmatch` wildcards (`*` any run of
characters, `?` one character, all case-sensitive on POSIX); the component
`**` matches any number of intermediate directories.  `fnmatch` character
classes (`[...]`) are not modelled; every theorem below restricts the
extension to characters that keep the embedded matcher faithful.  The
directory's contents are given as the list of files beneath it, each file a
list of name components relative to the directory. -/

/-- One-component `fnmatch` wildcard match: `*` matches any run (the rest of
the pattern must match some suffix of the text), `?` one character, anything
else itself. -/
def wildMatch : List Char → List Char → Bool
  | [], s => s.isEmpty
  | c :: p, s =>
    if c = '*' then
      (s.tails).any (fun t => wildMatch p t)
    else
      match s with
      | [] => false
      | c2 :: s2 => (c == '?' || c == c2) && wildMatch p s2

/-- Split a pattern string on `/`, as glob does to obtain its components. -/
def splitSlash : List Char → List (List Char)
  | [] => [[]]
  | c :: rest =>
    if c = '/' then [] :: splitSlash rest
    else
      match splitSlash rest with
      | [] => [[c]]
      | g :: gs => (c :: g) :: gs

/-- The glob pattern the script builds: `'**/*.{ext}'` when recursive,
`'*.{ext}'` otherwise (line 61 / 63). -/
def globPattern (recursive : Bool) (ext : String) : List Char :=
  if recursive then '*' :: '*' :: '/' :: '*' :: '.' :: ext.toList
  else '*' :: '.' :: ext.toList

/-- Match a component-wise glob pattern against a relative file path; the
`**` component matches any number of intermediate directories (the rest of
the pattern must match some suffix of the path). -/
def globMatch : List (List Char) → List String → Bool
  | [], path => path.isEmpty
  | pc :: ps, path =>
    if pc = ['*', '*'] then
      (path.tails).any (fun t => globMatch ps t)
    else
      match path with
      | [] => false
      | name :: rest => wildMatch pc name.toList && globMatch ps rest

/-- `directory.glob(...)` over the directory's file tree: keep the relative
paths the pattern matches, in enumeration order. -/
def enumerate (tree : List (List String)) (recursive : Bool) (ext : String) :
    List (List String) :=
  tree.filter (fun p => globMatch (splitSlash (globPattern recursive ext)) p)

/-- An extension with no glob path separator and no wildcard metacharacters
(the well-behaved inputs like `jpg`, `png`). -/
def extOk (ext : String) : Bool :=
  ext.toList.all (fun c => !(c == '/' || c == '*' || c == '?' || c == '['))

/-! ## Confirmation prompt and coordinator (lines 55-93) -/

/-- Line 73: `response.lower() in ["y", "yes"]` (Python's `str.lower` on the
basic-latin letters the two affirmative words use). -/
def confirmAffirmative (response : String) : Bool :=
  let l := response.toList.map Char.toLower
  l = "y".toList || l = "yes".toList

/-- Line 70: `"{0} image{1} to resize"` with the plural `s` when the total
exceeds one. -/
def countMsg (total : Nat) : String :=
  toString total ++ " image" ++ (if total > 1 then "s" else "") ++ " to resize"

/-- Line 93's `"Took {0:.2f} sec."` summary line; the elapsed wall-clock
seconds are real time and are not modelled. -/
def tookMsg : String :=
  "Took sec."

/-- Line 74's cancellation message. -/
def canceledMsg : String :=
  "Canceled."

/-- `worker(path, directory, outdir, width, height, verbose)` (lines 51-52):
it only forwards to `resize_image`; any exception escapes it uncaught. -/
def worker (decode : PyPath → Option PILImage) (fs : FS)
    (path directory outdir : PyPath) (width height : Option Int) :
    Except PyError (PyPath × PILImage) × FS :=
  resize_image decode fs path directory outdir width height

/-- The `apply_async`/`close`/`join` dispatch (lines 87-91) as a fold:
returns the final file system, the successfully processed paths, the items
whose worker raised (with the exception `apply_async` silently captured —
there is no `error_callback` and the `AsyncResult`s are never read), and how
many times the completion callback rendered the progress bar (`cb` is `None`
when `no_progress` is set, and is never invoked for a failed task). -/
def runPool (decode : PyPath → Option PILImage) (fs : FS) (paths : List PyPath)
    (directory outdir : PyPath) (width height : Option Int) (no_progress : Bool) :
    FS × List PyPath × List (PyPath × PyError) × Nat :=
  match paths with
  | [] => (fs, [], [], 0)
  | p :: rest =>
    let w := worker decode fs p directory outdir width height
    let r := runPool decode w.2 rest directory outdir width height no_progress
    match w.1 with
    | .ok _ => (r.1, p :: r.2.1, r.2.2.1, (if no_progress then 0 else 1) + r.2.2.2)
    | .error e => (r.1, r.2.1, (p, e) :: r.2.2.1, r.2.2.2)

/-- Everything observable about one `resize_dir` run. -/
structure RunResult where
  fs : FS
  printed : List String
  progressRenders : Nat
  succeeded : List PyPath
  failed : List (PyPath × PyError)
deriving Repr, DecidableEq

/-- `resize_dir` (lines 55-93): enumerate, print the count, prompt, then
either print `Canceled.` and stop, or dispatch every item to the pool and
print the timing line.  `tree` is the directory's file tree as seen by glob
and `response` the confirmation the user types. -/
def resize_dir (decode : PyPath → Option PILImage) (fs : FS)
    (tree : List (List String)) (directory outdir : PyPath) (recursive : Bool)
    (width height : Option Int) (ext : String) (no_progress : Bool)
    (response : String) : RunResult :=
  let rels := enumerate tree recursive ext
  let paths := rels.map (fun r => joinpath directory ⟨false, r⟩)
  let total := paths.length
  if !confirmAffirmative response then
    { fs := fs, printed := [countMsg total, canceledMsg], progressRenders := 0
      succeeded := [], failed := [] }
  else
    let r := runPool decode fs paths directory outdir width height no_progress
    { fs := r.1, printed := [countMsg total, tookMsg], progressRenders := r.2.2.2
      succeeded := r.2.1, failed := r.2.2.1 }

/-! ## CLI entry point (lines 123-162) -/

/-- The parsed command-line arguments (`argparse` has already checked that
`--outdir` is present and that `--dir`/`--file`/`--outdir` name existing
paths of the right kind). -/
structure Args where
  width : Option Int
  height : Option Int
  dir : Option PyPath
  file : Option PyPath
  recursive : Bool
  ext : String
  outdir : PyPath
  no_progress : Bool
deriving Repr, DecidableEq

/-- Line 149's usage message. -/
def dimErrMsg : String :=
  "Specify at least --width or --height arguments (both can be specified)"

/-- Line 152's usage message. -/
def srcErrMsg : String :=
  "Specify one of --dir and --file arguments"

/-- Line 155's usage message. -/
def bothErrMsg : String :=
  "You must choose between --dir and --file"

deriving instance DecidableEq for Except

/-- What an invocation of the script does after argument parsing:
a `parser.error` (which exits immediately), a directory batch, or a
single-file resize. -/
inductive MainOutcome where
  | usageError : String → MainOutcome
  | ranDir : RunResult → MainOutcome
  | ranFile : Except PyError (PyPath × PILImage) × FS → MainOutcome
deriving Repr, DecidableEq

/-- The `__main__` block (lines 147-162): validate the flag combination,
then run directory mode, or single-file mode with `pathlib.Path('.')` as the
source root. -/
def pyMain (decode : PyPath → Option PILImage) (fs : FS)
    (tree : List (List String)) (args : Args) (response : String) : MainOutcome :=
  if !(truthy args.width || truthy args.height) then .usageError dimErrMsg
  else if !(args.dir.isSome || args.file.isSome) then .usageError srcErrMsg
  else if args.dir.isSome && args.file.isSome then .usageError bothErrMsg
  else
    match args.dir with
    | some d =>
      .ranDir (resize_dir decode fs tree d args.outdir args.recursive args.width
        args.height args.ext args.no_progress response)
    | none =>
      match args.file with
      | some f =>
        .ranFile (resize_image decode fs f ⟨false, []⟩ args.outdir args.width args.height)
      | none => .usageError srcErrMsg

/-- The process exit status: `parser.error` exits 2, an uncaught exception in
single-file mode exits 1, and every completed run — including one whose
workers all failed — falls off the end of the script and exits 0. -/
def mainExitCode : MainOutcome → Nat
  | .usageError _ => 2
  | .ranDir _ => 0
  | .ranFile r =>
    match r.1 with
    | .ok _ => 0
    | .error _ => 1

/-- Is this error the line-97 assertion? -/
def isAssert : PyError → Bool
  | .assertionError => true
  | _ => false

/-- Whether an invocation tripped the line-97 assertion anywhere: directly in
single-file mode, or inside any worker of a directory batch. -/
def MainOutcome.hasAssertFailure : MainOutcome → Bool
  | .usageError _ => false
  | .ranFile r =>
    match r.1 with
    | .error e => isAssert e
    | .ok _ => false
  | .ranDir rr => rr.failed.any (fun pe => isAssert pe.2)

/-! ## Resolved locations (for stating claims about the working directory) -/

/-- Resolve `..` components lexically against a starting stack of
components. -/
def resolveDots : List String → List String → List String
  | acc, [] => acc
  | acc, c :: rest =>
    if c = ".." then resolveDots acc.dropLast rest
    else resolveDots (acc ++ [c]) rest

/-- Whether the file a path denotes lies beneath the working directory
`cwd` (an absolute directory given by its components). -/
def locatedBeneath (cwd : List String) (p : PyPath) : Bool :=
  let absP := if p.root then resolveDots [] p.parts else resolveDots cwd p.parts
  cwd.isPrefixOf absP

/-! ## Helper lemmas -/

lemma ancestors_self (p : PyPath) : p ∈ ancestors p := by
  refine List.mem_map.mpr ⟨p.parts.length, ?_, ?_⟩
  · simp [List.mem_range]
  · cases p with
    | mk r parts => simp

lemma ensure_parent_isOk (fs : FS) (p : PyPath) :
    ∃ fs1, ensure_parent fs p = .ok fs1 := by
  by_cases h : p.parent ∈ fs.dirs
  · exact ⟨fs, by simp [ensure_parent, h]⟩
  · refine ⟨{ fs with
        dirs := fs.dirs ++ (ancestors p.parent).filter (fun a => !decide (a ∈ fs.dirs)) }, ?_⟩
    simp [ensure_parent, mkdir_parents, h]

lemma ensure_parent_files (fs : FS) (p : PyPath) (fs1 : FS)
    (h : ensure_parent fs p = .ok fs1) : fs1.files = fs.files := by
  by_cases hm : p.parent ∈ fs.dirs
  · simp [ensure_parent, hm] at h
    simp [← h]
  · simp [ensure_parent, mkdir_parents, hm] at h
    simp [← h]

lemma ensure_parent_existing (fs : FS) (p : PyPath) (hm : p.parent ∈ fs.dirs) :
    ensure_parent fs p = .ok fs := by
  simp [ensure_parent, hm]

lemma ensure_parent_new (fs : FS) (p : PyPath) (hm : p.parent ∉ fs.dirs) :
    ensure_parent fs p =
      .ok { fs with dirs := fs.dirs ++ (ancestors p.parent).filter (fun a => !decide (a ∈ fs.dirs)) } := by
  simp [ensure_parent, mkdir_parents, hm]

lemma ensure_parent_parent_mem (fs : FS) (p : PyPath) (fs1 : FS)
    (h : ensure_parent fs p = .ok fs1) : p.parent ∈ fs1.dirs := by
  by_cases hm : p.parent ∈ fs.dirs
  · rw [ensure_parent_existing fs p hm] at h
    cases h
    exact hm
  · rw [ensure_parent_new fs p hm] at h
    cases h
    refine List.mem_append_right _ (List.mem_filter.mpr ⟨ancestors_self _, ?_⟩)
    simp [hm]

lemma ensure_parent_ancestors_mem (fs : FS) (p : PyPath) (fs1 : FS)
    (hm : p.parent ∉ fs.dirs) (h : ensure_parent fs p = .ok fs1) :
    ∀ q ∈ ancestors p.parent, q ∈ fs1.dirs := by
  rw [ensure_parent_new fs p hm] at h
  cases h
  intro q hq
  by_cases hqm : q ∈ fs.dirs
  · exact List.mem_append_left _ hqm
  · exact List.mem_append_right _ (List.mem_filter.mpr ⟨hq, by simp [hqm]⟩)

lemma resize_image_fst (decode : PyPath → Option PILImage) (fs : FS)
    (file indir outdir : PyPath) (width height : Option Int) :
    (resize_image decode fs file indir outdir width height).1 =
      itemOutcome decode file indir outdir width height := by
  by_cases ht : (truthy width || truthy height) = true
  · cases hd : decode file with
    | none => simp [resize_image, itemOutcome, ht, hd]
    | some img =>
      cases hr : relativeTo file indir with
      | none => simp [resize_image, itemOutcome, ht, hd, hr]
      | some rel =>
        obtain ⟨fs1, hfs1⟩ := ensure_parent_isOk fs (joinpath outdir rel)
        simp [resize_image, itemOutcome, ht, hd, hr, hfs1]
  · simp [resize_image, itemOutcome, ht]

lemma resize_image_ok (decode : PyPath → Option PILImage) (fs : FS)
    (file indir outdir : PyPath) (width height : Option Int) (img : PILImage) (rel : PyPath)
    (ht : (truthy width || truthy height) = true)
    (hd : decode file = some img) (hr : relativeTo file indir = some rel) :
    ∃ fs1, ensure_parent fs (joinpath outdir rel) = .ok fs1 ∧
      resize_image decode fs file indir outdir width height =
        (.ok (joinpath outdir rel, runPolicy img (policyCall width height)),
         { fs1 with
            files := fs1.files ++ [(joinpath outdir rel, runPolicy img (policyCall width height))] }) := by
  obtain ⟨fs1, hfs1⟩ := ensure_parent_isOk fs (joinpath outdir rel)
  exact ⟨fs1, hfs1, by simp [resize_image, ht, hd, hr, hfs1]⟩

lemma itemOutcome_not_assert (decode : PyPath → Option PILImage)
    (file indir outdir : PyPath) (width height : Option Int)
    (ht : (truthy width || truthy height) = true) :
    itemOutcome decode file indir outdir width height ≠ .error .assertionError := by
  cases hd : decode file with
  | none => simp [itemOutcome, ht, hd]
  | some img =>
    cases hr : relativeTo file indir with
    | none => simp [itemOutcome, ht, hd, hr]
    | some rel => simp [itemOutcome, ht, hd, hr]

lemma itemOutcome_assert_iff (decode : PyPath → Option PILImage)
    (file indir outdir : PyPath) (width height : Option Int) :
    itemOutcome decode file indir outdir width height = .error .assertionError ↔
      truthy width = false ∧ truthy height = false := by
  constructor
  · intro h
    by_cases ht : (truthy width || truthy height) = true
    · exact absurd h (itemOutcome_not_assert decode file indir outdir width height ht)
    · simp only [Bool.or_eq_true, not_or, Bool.not_eq_true] at ht
      exact ht
  · intro hwh
    simp [itemOutcome, hwh.1, hwh.2]

lemma runPool_np (decode : PyPath → Option PILImage) (directory outdir : PyPath)
    (width height : Option Int) (paths : List PyPath) : ∀ fs : FS,
    runPool decode fs paths directory outdir width height true =
      ((runPool decode fs paths directory outdir width height false).1,
       (runPool decode fs paths directory outdir width height false).2.1,
       (runPool decode fs paths directory outdir width height false).2.2.1, 0) := by
  induction paths with
  | nil => intro fs; simp [runPool]
  | cons p rest ih =>
    intro fs
    simp only [runPool]
    cases hw : (worker decode fs p directory outdir width height).1 <;>
      simp [hw, ih]

lemma runPool_outcomes (decode : PyPath → Option PILImage) (directory outdir : PyPath)
    (width height : Option Int) (np : Bool) (paths : List PyPath) : ∀ fs : FS,
    (runPool decode fs paths directory outdir width height np).2.1 =
      paths.filter (fun p => exceptOk (itemOutcome decode p directory outdir width height)) ∧
    (runPool decode fs paths directory outdir width height np).2.2.1 =
      paths.filterMap (fun p =>
        match itemOutcome decode p directory outdir width height with
        | .error e => some (p, e)
        | .ok _ => none) := by
  induction paths with
  | nil => intro fs; simp [runPool]
  | cons p rest ih =>
    intro fs
    have hfst : (worker decode fs p directory outdir width height).1 =
        itemOutcome decode p directory outdir width height :=
      resize_image_fst decode fs p directory outdir width height
    simp only [runPool, List.filter_cons, List.filterMap_cons]
    cases ho : itemOutcome decode p directory outdir width height with
    | ok v =>
      rw [hfst, ho]
      simp [exceptOk, ho, ih]
    | error e =>
      rw [hfst, ho]
      simp [exceptOk, ho, ih]

lemma runPool_len (decode : PyPath → Option PILImage) (directory outdir : PyPath)
    (width height : Option Int) (np : Bool) (paths : List PyPath) : ∀ fs : FS,
    (runPool decode fs paths directory outdir width height np).2.1.length +
      (runPool decode fs paths directory outdir width height np).2.2.1.length = paths.length := by
  induction paths with
  | nil => intro fs; simp [runPool]
  | cons p rest ih =>
    intro fs
    have h2 := ih (worker decode fs p directory outdir width height).2
    simp only [runPool]
    cases hw : (worker decode fs p directory outdir width height).1 <;>
      simp [hw] <;> omega

lemma wildMatch_lit : ∀ (p : List Char), (∀ c ∈ p, c ≠ '*' ∧ c ≠ '?') →
    ∀ s, (wildMatch p s = true ↔ p = s) := by
  intro p
  induction p with
  | nil => intro _ s; cases s <;> simp [wildMatch]
  | cons c p ih =>
    intro hp s
    have hc : c ≠ '*' := (hp c (List.mem_cons_self c p)).1
    have hq : c ≠ '?' := (hp c (List.mem_cons_self c p)).2
    have ih2 := ih (fun d hd => hp d (List.mem_cons_of_mem c hd))
    cases s with
    | nil => simp [wildMatch, hc]
    | cons c2 s2 =>
      rw [wildMatch]
      simp [hc, hq, ih2 s2, List.cons.injEq]

lemma wildMatch_star (p : List Char) (hp : ∀ c ∈ p, c ≠ '*' ∧ c ≠ '?') :
    ∀ s, (wildMatch ('*' :: p) s = true ↔ p <:+ s) := by
  intro s
  have hunf : wildMatch ('*' :: p) s = (s.tails).any (fun t => wildMatch p t) := rfl
  rw [hunf]
  simp [wildMatch_lit p hp, List.mem_tails]

lemma splitSlash_no_slash (l : List Char) (h : '/' ∉ l) : splitSlash l = [l] := by
  induction l with
  | nil => rfl
  | cons c rest ih =>
    have hc : c ≠ '/' := fun hh => h (hh ▸ List.mem_cons_self c rest)
    have ih2 := ih (fun hm => h (List.mem_cons_of_mem c hm))
    simp [splitSlash, hc, ih2]

lemma extOk_chars (ext : String) (hext : extOk ext = true) :
    ∀ c ∈ ext.toList, c ≠ '/' ∧ c ≠ '*' ∧ c ≠ '?' ∧ c ≠ '[' := by
  intro c hc
  have h := List.all_eq_true.mp hext c hc
  simp only [Bool.not_eq_eq_eq_not, Bool.not_true, Bool.or_eq_false_iff, beq_eq_false_iff_ne,
    ne_eq] at h
  exact ⟨h.1.1.1, h.1.1.2, h.1.2, h.2⟩

lemma extPat_no_slash (ext : String) (hext : extOk ext = true) :
    '/' ∉ '*' :: '.' :: ext.toList := by
  intro hm
  rcases List.mem_cons.mp hm with h1 | hm2
  · exact absurd h1 (by decide)
  rcases List.mem_cons.mp hm2 with h1 | hm3
  · exact absurd h1 (by decide)
  · exact (extOk_chars ext hext '/' hm3).1 rfl

lemma globPattern_split_false (ext : String) (hext : extOk ext = true) :
    splitSlash (globPattern false ext) = ['*' :: '.' :: ext.toList] := by
  simpa [globPattern] using splitSlash_no_slash _ (extPat_no_slash ext hext)

lemma globPattern_split_true (ext : String) (hext : extOk ext = true) :
    splitSlash (globPattern true ext) = [['*', '*'], '*' :: '.' :: ext.toList] := by
  have h1 := splitSlash_no_slash _ (extPat_no_slash ext hext)
  show splitSlash ('*' :: '*' :: '/' :: '*' :: '.' :: ext.toList) = _
  generalize hgen : '*' :: '.' :: ext.toList = pat at h1 ⊢
  simp [splitSlash, h1]

lemma extPat_ne_recWild (ext : String) : '*' :: '.' :: ext.toList ≠ ['*', '*'] := by
  simp

lemma globMatch_single (pc : List Char) (hne : pc ≠ ['*', '*']) :
    ∀ path, (globMatch [pc] path = true ↔
      ∃ name, path = [name] ∧ wildMatch pc name.toList = true) := by
  intro path
  cases path with
  | nil => simp [globMatch, hne]
  | cons name rest =>
    cases rest with
    | nil => simp [globMatch, hne]
    | cons b t => simp [globMatch, hne]

lemma globMatch_rec (pc : List Char) (hne : pc ≠ ['*', '*']) :
    ∀ path, (globMatch [['*', '*'], pc] path = true ↔
      ∃ pre name, path = pre ++ [name] ∧ wildMatch pc name.toList = true) := by
  intro path
  have hunf : globMatch [['*', '*'], pc] path = (path.tails).any (fun t => globMatch [pc] t) := rfl
  rw [hunf]
  simp only [List.any_eq_true, globMatch_single pc hne]
  constructor
  · rintro ⟨t, htails, name, rfl, hw⟩
    obtain ⟨pre, hpre⟩ := (List.mem_tails [name] path).mp htails
    exact ⟨pre, name, hpre.symm, hw⟩
  · rintro ⟨pre, name, rfl, hw⟩
    exact ⟨[name], (List.mem_tails [name] (pre ++ [name])).mpr ⟨pre, rfl⟩, name, rfl, hw⟩

lemma enumerate_mem_false (tree : List (List String)) (ext : String)
    (hext : extOk ext = true) (p : List String) :
    p ∈ enumerate tree false ext ↔
      p ∈ tree ∧ ∃ name, p = [name] ∧ ('.' :: ext.toList) <:+ name.toList := by
  have hp : ∀ c ∈ '.' :: ext.toList, c ≠ '*' ∧ c ≠ '?' := by
    intro c hc
    rcases List.mem_cons.mp hc with rfl | hc2
    · constructor <;> decide
    · exact ⟨(extOk_chars ext hext c hc2).2.1, (extOk_chars ext hext c hc2).2.2.1⟩
  unfold enumerate
  rw [List.mem_filter, globPattern_split_false ext hext]
  constructor
  · rintro ⟨hmem, hglob⟩
    obtain ⟨name, heq, hw⟩ := (globMatch_single _ (extPat_ne_recWild ext) p).mp hglob
    exact ⟨hmem, name, heq, (wildMatch_star _ hp name.toList).mp hw⟩
  · rintro ⟨hmem, name, heq, hsuf⟩
    exact ⟨hmem, (globMatch_single _ (extPat_ne_recWild ext) p).mpr
      ⟨name, heq, (wildMatch_star _ hp name.toList).mpr hsuf⟩⟩

lemma enumerate_mem_true (tree : List (List String)) (ext : String)
    (hext : extOk ext = true) (p : List String) :
    p ∈ enumerate tree true ext ↔
      p ∈ tree ∧ ∃ pre name, p = pre ++ [name] ∧ ('.' :: ext.toList) <:+ name.toList := by
  have hp : ∀ c ∈ '.' :: ext.toList, c ≠ '*' ∧ c ≠ '?' := by
    intro c hc
    rcases List.mem_cons.mp hc with rfl | hc2
    · constructor <;> decide
    · exact ⟨(extOk_chars ext hext c hc2).2.1, (extOk_chars ext hext c hc2).2.2.1⟩
  unfold enumerate
  rw [List.mem_filter, globPattern_split_true ext hext]
  constructor
  · rintro ⟨hmem, hglob⟩
    obtain ⟨pre, name, heq, hw⟩ := (globMatch_rec _ (extPat_ne_recWild ext) p).mp hglob
    exact ⟨hmem, pre, name, heq, (wildMatch_star _ hp name.toList).mp hw⟩
  · rintro ⟨hmem, pre, name, heq, hsuf⟩
    exact ⟨hmem, (globMatch_rec _ (extPat_ne_recWild ext) p).mpr
      ⟨pre, name, heq, (wildMatch_star _ hp name.toList).mpr hsuf⟩⟩

lemma isAssert_iff (e : PyError) : isAssert e = true ↔ e = .assertionError := by
  cases e <;> simp [isAssert]

lemma resize_dir_cancel (decode : PyPath → Option PILImage) (fs : FS)
    (tree : List (List String)) (directory outdir : PyPath) (recursive : Bool)
    (width height : Option Int) (ext : String) (np : Bool) (response : String)
    (hc : confirmAffirmative response = false) :
    resize_dir decode fs tree directory outdir recursive width height ext np response =
      { fs := fs,
        printed := [countMsg ((enumerate tree recursive ext).length), canceledMsg],
        progressRenders := 0, succeeded := [], failed := [] } := by
  simp [resize_dir, hc]

lemma resize_dir_proceed (decode : PyPath → Option PILImage) (fs : FS)
    (tree : List (List String)) (directory outdir : PyPath) (recursive : Bool)
    (width height : Option Int) (ext : String) (np : Bool) (response : String)
    (hc : confirmAffirmative response = true) :
    resize_dir decode fs tree directory outdir recursive width height ext np response =
      { fs := (runPool decode fs
          ((enumerate tree recursive ext).map (fun r => joinpath directory ⟨false, r⟩))
          directory outdir width height np).1,
        printed := [countMsg ((enumerate tree recursive ext).length), tookMsg],
        progressRenders := (runPool decode fs
          ((enumerate tree recursive ext).map (fun r => joinpath directory ⟨false, r⟩))
          directory outdir width height np).2.2.2,
        succeeded := (runPool decode fs
          ((enumerate tree recursive ext).map (fun r => joinpath directory ⟨false, r⟩))
          directory outdir width height np).2.1,
        failed := (runPool decode fs
          ((enumerate tree recursive ext).map (fun r => joinpath directory ⟨false, r⟩))
          directory outdir width height np).2.2.1 } := by
  simp [resize_dir, hc]

lemma ediv_bounds (a b : Int) (hb : 0 < b) : (a / b) * b ≤ a ∧ a < (a / b + 1) * b := by
  have h := Int.ediv_add_emod a b
  have h2 := Int.emod_nonneg a (ne_of_gt hb)
  have h3 := Int.emod_lt_of_pos a hb
  constructor <;> nlinarith

/-! ## Concrete fixtures used by witnesses and counterexamples -/

/-- A 200x100 JPEG source image. -/
def demoImg : PILImage := ⟨200, 100, "JPEG"⟩

/-- An output root `/out` that already exists, with nothing written yet. -/
def demoFS : FS := ⟨[⟨true, ["out"]⟩], []⟩

/-- A decode oracle under which `/in/b.jpg` is corrupt and everything else
decodes to `demoImg`. -/
def demoDecode : PyPath → Option PILImage :=
  fun p => if p = ⟨true, ["in", "b.jpg"]⟩ then none else some demoImg

/-! ## Claims -/

/-- C1: for every source image and every valid `ResizeSpec` (positive
dimensions): when both width and height are set, `resize_image` resizes via
the contain/thumbnail primitive and the output dimensions are exactly
(width, height); when only the width is set, the output width equals the
requested width and the output height is the aspect-ratio-preserving derived
value (characterized within rounding: `out.height` is the floor of
`img.height * w / img.width`); when only the height is set, symmetrically. -/
theorem C1_resize_policy_dimensions (decode : PyPath → Option PILImage) (fs : FS)
    (file indir outdir : PyPath) (img : PILImage) (rel : PyPath) (w h : Int)
    (hd : decode file = some img) (hr : relativeTo file indir = some rel)
    (hiw : 0 < img.width) (hih : 0 < img.height) (hw : 0 < w) (hh : 0 < h) :
    (∃ out, resizedResult (resize_image decode fs file indir outdir (some w) (some h)) = some out ∧
       out.width = w ∧ out.height = h) ∧
    (∃ out, resizedResult (resize_image decode fs file indir outdir (some w) none) = some out ∧
       out.width = w ∧ out.height * img.width ≤ img.height * w ∧
       img.height * w < (out.height + 1) * img.width) ∧
    (∃ out, resizedResult (resize_image decode fs file indir outdir none (some h)) = some out ∧
       out.height = h ∧ out.width * img.height ≤ img.width * h ∧
       img.width * h < (out.width + 1) * img.height) := by
  have hwne : w ≠ 0 := by omega
  have hhne : h ≠ 0 := by omega
  have htw : truthy (some w) = true := by
    simp only [truthy, bne_iff_ne, ne_eq]
    omega
  have hth : truthy (some h) = true := by
    simp only [truthy, bne_iff_ne, ne_eq]
    omega
  have hpc1 : policyCall (some w) (some h) = .thumbnail w h := by
    simp [policyCall, truthy, hwne, hhne]
  have hpc2 : policyCall (some w) none = .byWidth w := by
    simp [policyCall, truthy, hwne]
  have hpc3 : policyCall none (some h) = .byHeight h := by
    simp [policyCall, truthy, hhne]
  refine ⟨?_, ?_, ?_⟩
  · obtain ⟨fs1, _, heq⟩ := resize_image_ok decode fs file indir outdir (some w) (some h) img rel
      (by simp [htw]) hd hr
    refine ⟨runPolicy img (policyCall (some w) (some h)), by rw [heq]; rfl, ?_, ?_⟩ <;>
      simp [hpc1, runPolicy, resize_thumbnail]
  · obtain ⟨fs1, _, heq⟩ := resize_image_ok decode fs file indir outdir (some w) none img rel
      (by simp [htw]) hd hr
    refine ⟨runPolicy img (policyCall (some w) none), by rw [heq]; rfl, ?_, ?_, ?_⟩
    · simp [hpc2, runPolicy, resize_width]
    · simpa [hpc2, runPolicy, resize_width] using (ediv_bounds (img.height * w) img.width hiw).1
    · simpa [hpc2, runPolicy, resize_width] using (ediv_bounds (img.height * w) img.width hiw).2
  · obtain ⟨fs1, _, heq⟩ := resize_image_ok decode fs file indir outdir none (some h) img rel
      (by simp [hth]) hd hr
    refine ⟨runPolicy img (policyCall none (some h)), by rw [heq]; rfl, ?_, ?_, ?_⟩
    · simp [hpc3, runPolicy, resize_height]
    · simpa [hpc3, runPolicy, resize_height] using (ediv_bounds (img.width * h) img.height hih).1
    · simpa [hpc3, runPolicy, resize_height] using (ediv_bounds (img.width * h) img.height hih).2

/-- C1 witness: the theorem applied at a concrete 200x100 JPEG with
width 100 and height 60. -/
theorem C1_resize_policy_dimensions_witness :
    (∃ out, resizedResult (resize_image demoDecode demoFS ⟨true, ["in", "a.jpg"]⟩ ⟨true, ["in"]⟩
        ⟨true, ["out"]⟩ (some 100) (some 60)) = some out ∧
       out.width = 100 ∧ out.height = 60) ∧
    (∃ out, resizedResult (resize_image demoDecode demoFS ⟨true, ["in", "a.jpg"]⟩ ⟨true, ["in"]⟩
        ⟨true, ["out"]⟩ (some 100) none) = some out ∧
       out.width = 100 ∧ out.height * demoImg.width ≤ demoImg.height * 100 ∧
       demoImg.height * 100 < (out.height + 1) * demoImg.width) ∧
    (∃ out, resizedResult (resize_image demoDecode demoFS ⟨true, ["in", "a.jpg"]⟩ ⟨true, ["in"]⟩
        ⟨true, ["out"]⟩ none (some 60)) = some out ∧
       out.height = 60 ∧ out.width * demoImg.height ≤ demoImg.width * 60 ∧
       demoImg.width * 60 < (out.width + 1) * demoImg.height) :=
  C1_resize_policy_dimensions demoDecode demoFS ⟨true, ["in", "a.jpg"]⟩ ⟨true, ["in"]⟩
    ⟨true, ["out"]⟩ demoImg ⟨false, ["a.jpg"]⟩ 100 60 (by decide) (by decide)
    (by decide) (by decide) (by decide) (by decide)

/-- C7: for every work item whose source image fails to open or decode
(`decode` returns `none`), `resize_image` fails with `DecodeError` and
returns the file system unchanged: the output path has not been computed and
no output directory has been created. -/
theorem C7_decode_failure_no_output_dirs (decode : PyPath → Option PILImage) (fs : FS)
    (file indir outdir : PyPath) (width height : Option Int)
    (ht : (truthy width || truthy height) = true) (hd : decode file = none) :
    resize_image decode fs file indir outdir width height = (.error .decodeError, fs) := by
  simp [resize_image, ht, hd]

/-- C7 witness: the corrupt `/in/b.jpg` fails with `DecodeError`, leaving the
file system untouched. -/
theorem C7_decode_failure_no_output_dirs_witness :
    resize_image demoDecode demoFS ⟨true, ["in", "b.jpg"]⟩ ⟨true, ["in"]⟩ ⟨true, ["out"]⟩
      (some 100) none = (.error .decodeError, demoFS) :=
  C7_decode_failure_no_output_dirs demoDecode demoFS ⟨true, ["in", "b.jpg"]⟩ ⟨true, ["in"]⟩
    ⟨true, ["out"]⟩ (some 100) none (by decide) (by decide)

/-- C6: `resize_image` fails with the line-97 assertion exactly when neither
width nor height is set (truthy), and no invocation reached through the CLI
entry point can trip that assertion: the startup validation exits with a
usage error first. -/
theorem C6_assert_iff_and_cli_guard :
    (∀ (decode : PyPath → Option PILImage) (fs : FS) (file indir outdir : PyPath)
       (width height : Option Int),
       ((resize_image decode fs file indir outdir width height).1 = .error .assertionError ↔
         truthy width = false ∧ truthy height = false)) ∧
    (∀ (decode : PyPath → Option PILImage) (fs : FS) (tree : List (List String))
       (args : Args) (response : String),
       (pyMain decode fs tree args response).hasAssertFailure = false) := by
  constructor
  · intro decode fs file indir outdir width height
    rw [resize_image_fst]
    exact itemOutcome_assert_iff decode file indir outdir width height
  · intro decode fs tree args response
    by_cases h1 : (truthy args.width || truthy args.height) = true
    · by_cases h2 : (args.dir.isSome || args.file.isSome) = true
      · by_cases h3 : (args.dir.isSome && args.file.isSome) = true
        · simp [pyMain, h1, h2, h3, MainOutcome.hasAssertFailure]
        · cases hdir : args.dir with
          | some d =>
            have hfile : args.file.isSome = false := by
              rw [hdir] at h3
              simpa using h3
            have hred : pyMain decode fs tree args response =
                .ranDir (resize_dir decode fs tree d args.outdir args.recursive args.width
                  args.height args.ext args.no_progress response) := by
              simp [pyMain, h1, hdir, hfile]
            rw [hred]
            by_cases hconf : confirmAffirmative response = true
            · have houts := runPool_outcomes decode d args.outdir args.width args.height
                args.no_progress
                ((enumerate tree args.recursive args.ext).map (fun r => joinpath d ⟨false, r⟩)) fs
              rw [resize_dir_proceed decode fs tree d args.outdir args.recursive args.width
                args.height args.ext args.no_progress response hconf]
              simp only [MainOutcome.hasAssertFailure]
              rw [houts.2]
              rw [List.any_eq_false]
              intro pe hpe
              obtain ⟨q, hqmem, hq⟩ := List.mem_filterMap.mp hpe
              cases ho : itemOutcome decode q d args.outdir args.width args.height with
              | ok v => rw [ho] at hq; cases hq
              | error e2 =>
                rw [ho] at hq
                cases hq
                intro hass
                have hass2 : e2 = PyError.assertionError := (isAssert_iff e2).mp hass
                exact itemOutcome_not_assert decode q d args.outdir args.width args.height h1
                  (hass2 ▸ ho)
            · rw [Bool.not_eq_true] at hconf
              rw [resize_dir_cancel decode fs tree d args.outdir args.recursive args.width
                args.height args.ext args.no_progress response hconf]
              simp [MainOutcome.hasAssertFailure]
          | none =>
            cases hfile : args.file with
            | some f =>
              have hred : pyMain decode fs tree args response =
                  .ranFile (resize_image decode fs f ⟨false, []⟩ args.outdir args.width
                    args.height) := by
                simp [pyMain, h1, hdir, hfile]
              rw [hred]
              simp only [MainOutcome.hasAssertFailure]
              rw [resize_image_fst]
              cases ho : itemOutcome decode f ⟨false, []⟩ args.outdir args.width args.height with
              | ok v => simp
              | error e =>
                simp only []
                by_contra hass
                rw [Bool.not_eq_false, isAssert_iff] at hass
                exact itemOutcome_not_assert decode f ⟨false, []⟩ args.outdir args.width
                  args.height h1 (hass ▸ ho)
            | none =>
              rw [hdir, hfile] at h2
              simp at h2
      · simp [pyMain, h1, h2, MainOutcome.hasAssertFailure]
    · simp [pyMain, h1, MainOutcome.hasAssertFailure]

/-- C6 witness: the assertion-characterization at an absent width and a zero
height, and the CLI guard at a concrete invocation that provides no
dimension. -/
theorem C6_assert_iff_and_cli_guard_witness :
    ((resize_image demoDecode demoFS ⟨true, ["in", "a.jpg"]⟩ ⟨true, ["in"]⟩ ⟨true, ["out"]⟩
        none (some 0)).1 = .error .assertionError ↔
      truthy none = false ∧ truthy (some 0) = false) ∧
    (pyMain demoDecode demoFS [["a.jpg"]]
      ⟨none, some 0, some ⟨true, ["in"]⟩, none, false, "jpg", ⟨true, ["out"]⟩, false⟩
      "y").hasAssertFailure = false :=
  ⟨C6_assert_iff_and_cli_guard.1 demoDecode demoFS ⟨true, ["in", "a.jpg"]⟩ ⟨true, ["in"]⟩
      ⟨true, ["out"]⟩ none (some 0),
   C6_assert_iff_and_cli_guard.2 demoDecode demoFS [["a.jpg"]]
      ⟨none, some 0, some ⟨true, ["in"]⟩, none, false, "jpg", ⟨true, ["out"]⟩, false⟩ "y"⟩

/-- C9: a width or height of 0 is treated as absent throughout: the CLI
rejects an invocation whose only provided dimension is 0; in `resize_image`'s
dispatch a zero width with a set height selects the height-only strategy (and
symmetrically); and whenever the assertion passes, no zero dimension is ever
passed to a resize primitive. -/
theorem C9_zero_dimension_treated_absent :
    (∀ (decode : PyPath → Option PILImage) (fs : FS) (tree : List (List String))
       (args : Args) (response : String), args.width = some 0 → args.height = none →
       pyMain decode fs tree args response = .usageError dimErrMsg) ∧
    (∀ (decode : PyPath → Option PILImage) (fs : FS) (tree : List (List String))
       (args : Args) (response : String), args.width = none → args.height = some 0 →
       pyMain decode fs tree args response = .usageError dimErrMsg) ∧
    (∀ h : Int, h ≠ 0 → policyCall (some 0) (some h) = .byHeight h) ∧
    (∀ w : Int, w ≠ 0 → policyCall (some w) (some 0) = .byWidth w) ∧
    (∀ width height : Option Int, (truthy width || truthy height) = true →
       (0 : Int) ∉ callDims (policyCall width height)) := by
  refine ⟨?_, ?_, ?_, ?_, ?_⟩
  · intro decode fs tree args response hw hh
    simp [pyMain, hw, hh, truthy]
  · intro decode fs tree args response hw hh
    simp [pyMain, hw, hh, truthy]
  · intro h hne
    simp [policyCall, truthy, hne]
  · intro w wne
    simp [policyCall, truthy, wne]
  · intro width height ht
    by_cases htw : truthy width = true
    · cases width with
      | none => simp [truthy] at htw
      | some wv =>
        have hwv : wv ≠ 0 := by simpa [truthy] using htw
        by_cases hth : truthy height = true
        · cases height with
          | none => simp [truthy] at hth
          | some hv =>
            have hhv : hv ≠ 0 := by simpa [truthy] using hth
            simp [policyCall, htw, hth, callDims, hwv, hhv, Ne.symm hwv, Ne.symm hhv]
        · simp only [Bool.not_eq_true] at hth
          simp [policyCall, htw, hth, callDims, Ne.symm hwv]
    · simp only [Bool.not_eq_true] at htw
      have hth : truthy height = true := by
        rcases Bool.or_eq_true_iff.mp ht with hc | hc
        · rw [htw] at hc; cases hc
        · exact hc
      cases height with
      | none => simp [truthy] at hth
      | some hv =>
        have hhv : hv ≠ 0 := by simpa [truthy] using hth
        simp [policyCall, htw, hth, callDims, Ne.symm hhv]

/-- C9 witness: the theorem applied at a zero width with height 60, and at a
CLI invocation whose only dimension is `--width 0`. -/
theorem C9_zero_dimension_treated_absent_witness :
    pyMain demoDecode demoFS [["a.jpg"]]
      ⟨some 0, none, some ⟨true, ["in"]⟩, none, false, "jpg", ⟨true, ["out"]⟩, false⟩
      "y" = .usageError dimErrMsg ∧
    policyCall (some 0) (some 60) = .byHeight 60 ∧
    (0 : Int) ∉ callDims (policyCall (some 0) (some 60)) :=
  ⟨C9_zero_dimension_treated_absent.1 demoDecode demoFS [["a.jpg"]]
      ⟨some 0, none, some ⟨true, ["in"]⟩, none, false, "jpg", ⟨true, ["out"]⟩, false⟩ "y" rfl rfl,
   C9_zero_dimension_treated_absent.2.2.1 60 (by decide),
   C9_zero_dimension_treated_absent.2.2.2.2 (some 0) (some 60) (by decide)⟩

/-- C3: the confirmation gate: an answer equal to `y`/`yes` up to ASCII case
proceeds to dispatch (every enumerated item is then attempted exactly once);
any other answer cancels — the batch then ends with zero items processed, the
file system untouched (no files written), only the count line and
`Canceled.` printed, and a success exit status (directory runs always exit
0). -/
theorem C3_confirmation_gate (decode : PyPath → Option PILImage) (fs : FS)
    (tree : List (List String)) (directory outdir : PyPath) (recursive : Bool)
    (width height : Option Int) (ext : String) (np : Bool) (response : String) :
    (confirmAffirmative "y" = true ∧ confirmAffirmative "Y" = true ∧
     confirmAffirmative "yes" = true ∧ confirmAffirmative "YES" = true ∧
     confirmAffirmative "Yes" = true ∧ confirmAffirmative "yEs" = true ∧
     confirmAffirmative "n" = false ∧ confirmAffirmative "no" = false ∧
     confirmAffirmative "" = false ∧ confirmAffirmative "y " = false) ∧
    (confirmAffirmative response = false →
       resize_dir decode fs tree directory outdir recursive width height ext np response =
         { fs := fs,
           printed := [countMsg ((enumerate tree recursive ext).length), canceledMsg],
           progressRenders := 0, succeeded := [], failed := [] }) ∧
    (confirmAffirmative response = true →
       (resize_dir decode fs tree directory outdir recursive width height ext np
           response).succeeded.length +
         (resize_dir decode fs tree directory outdir recursive width height ext np
           response).failed.length = (enumerate tree recursive ext).length) ∧
    (∀ rr : RunResult, mainExitCode (.ranDir rr) = 0) := by
  refine ⟨by decide, ?_, ?_, fun rr => rfl⟩
  · intro hc
    exact resize_dir_cancel decode fs tree directory outdir recursive width height ext np
      response hc
  · intro hc
    rw [resize_dir_proceed decode fs tree directory outdir recursive width height ext np
      response hc]
    have hlen := runPool_len decode directory outdir width height np
      ((enumerate tree recursive ext).map (fun r => joinpath directory ⟨false, r⟩)) fs
    simpa using hlen

/-- C3 witness: the theorem applied at a concrete batch, with the cancel
branch discharged at the response `n` and the proceed branch at `y`. -/
theorem C3_confirmation_gate_witness :
    (confirmAffirmative "n" = false →
       resize_dir demoDecode demoFS [["a.jpg"], ["b.jpg"]] ⟨true, ["in"]⟩ ⟨true, ["out"]⟩
           false (some 100) none "jpg" false "n" =
         { fs := demoFS,
           printed := [countMsg ((enumerate [["a.jpg"], ["b.jpg"]] false "jpg").length),
             canceledMsg],
           progressRenders := 0, succeeded := [], failed := [] }) ∧
    (confirmAffirmative "n" = false) ∧
    (confirmAffirmative "y" = true →
       (resize_dir demoDecode demoFS [["a.jpg"], ["b.jpg"]] ⟨true, ["in"]⟩ ⟨true, ["out"]⟩
           false (some 100) none "jpg" false "y").succeeded.length +
         (resize_dir demoDecode demoFS [["a.jpg"], ["b.jpg"]] ⟨true, ["in"]⟩ ⟨true, ["out"]⟩
           false (some 100) none "jpg" false "y").failed.length =
         (enumerate [["a.jpg"], ["b.jpg"]] false "jpg").length) ∧
    (confirmAffirmative "y" = true) :=
  ⟨(C3_confirmation_gate demoDecode demoFS [["a.jpg"], ["b.jpg"]] ⟨true, ["in"]⟩
      ⟨true, ["out"]⟩ false (some 100) none "jpg" false "n").2.1,
   by decide,
   (C3_confirmation_gate demoDecode demoFS [["a.jpg"], ["b.jpg"]] ⟨true, ["in"]⟩
      ⟨true, ["out"]⟩ false (some 100) none "jpg" false "y").2.2.1,
   by decide⟩

/-- C8: quiet mode (`--no-progress`) suppresses all progress rendering and
nothing else: for the same inputs the quiet and non-quiet runs write the same
files, process and record the same successes and failures, and print the same
count and summary lines; only the number of progress renders differs (zero
when quiet). -/
theorem C8_quiet_mode_frame (decode : PyPath → Option PILImage) (fs : FS)
    (tree : List (List String)) (directory outdir : PyPath) (recursive : Bool)
    (width height : Option Int) (ext : String) (response : String) :
    (resize_dir decode fs tree directory outdir recursive width height ext true
        response).progressRenders = 0 ∧
    (resize_dir decode fs tree directory outdir recursive width height ext true response).fs =
      (resize_dir decode fs tree directory outdir recursive width height ext false response).fs ∧
    (resize_dir decode fs tree directory outdir recursive width height ext true
        response).succeeded =
      (resize_dir decode fs tree directory outdir recursive width height ext false
        response).succeeded ∧
    (resize_dir decode fs tree directory outdir recursive width height ext true
        response).failed =
      (resize_dir decode fs tree directory outdir recursive width height ext false
        response).failed ∧
    (resize_dir decode fs tree directory outdir recursive width height ext true
        response).printed =
      (resize_dir decode fs tree directory outdir recursive width height ext false
        response).printed := by
  by_cases hc : confirmAffirmative response = true
  · have hnp := runPool_np decode directory outdir width height
      ((enumerate tree recursive ext).map (fun r => joinpath directory ⟨false, r⟩)) fs
    rw [resize_dir_proceed decode fs tree directory outdir recursive width height ext true
      response hc]
    rw [resize_dir_proceed decode fs tree directory outdir recursive width height ext false
      response hc]
    rw [hnp]
    exact ⟨rfl, rfl, rfl, rfl, rfl⟩
  · rw [Bool.not_eq_true] at hc
    rw [resize_dir_cancel decode fs tree directory outdir recursive width height ext true
      response hc]
    rw [resize_dir_cancel decode fs tree directory outdir recursive width height ext false
      response hc]
    exact ⟨rfl, rfl, rfl, rfl, rfl⟩

/-- C2 counterexample: a confirmed batch of two items in which `/in/b.jpg` is
corrupt.  The sibling item is still processed and the failure is recorded in
the model's bookkeeping, but the run prints only the count line and the
timing line — no list of failed paths — and the process exit status is 0
although the failure count is nonzero, contradicting the claimed summary and
non-zero exit. -/
theorem C2_counterexample :
    (resize_dir demoDecode demoFS [["a.jpg"], ["b.jpg"]] ⟨true, ["in"]⟩ ⟨true, ["out"]⟩
        false (some 100) none "jpg" false "y").failed =
      [(⟨true, ["in", "b.jpg"]⟩, .decodeError)] ∧
    (resize_dir demoDecode demoFS [["a.jpg"], ["b.jpg"]] ⟨true, ["in"]⟩ ⟨true, ["out"]⟩
        false (some 100) none "jpg" false "y").succeeded = [⟨true, ["in", "a.jpg"]⟩] ∧
    (resize_dir demoDecode demoFS [["a.jpg"], ["b.jpg"]] ⟨true, ["in"]⟩ ⟨true, ["out"]⟩
        false (some 100) none "jpg" false "y").printed = [countMsg 2, tookMsg] ∧
    mainExitCode (.ranDir (resize_dir demoDecode demoFS [["a.jpg"], ["b.jpg"]]
      ⟨true, ["in"]⟩ ⟨true, ["out"]⟩ false (some 100) none "jpg" false "y")) = 0 := by
  decide

/-- C2 amended: each per-item error is caught at the worker boundary
(`apply_async` silently captures it) without crashing sibling workers or the
coordinator, and all remaining valid items are still processed — the
successes are exactly the items whose own processing succeeds, independent of
other items' failures.  However, the failures are not reported anywhere: the
run prints only the count line and the timing line, and the process exits
with status 0 even when the failure count is nonzero. -/
theorem C2_amended_silent_failure_isolation (decode : PyPath → Option PILImage) (fs : FS)
    (tree : List (List String)) (directory outdir : PyPath) (recursive : Bool)
    (width height : Option Int) (ext : String) (np : Bool) (response : String)
    (hc : confirmAffirmative response = true) :
    (resize_dir decode fs tree directory outdir recursive width height ext np
        response).succeeded =
      ((enumerate tree recursive ext).map (fun r => joinpath directory ⟨false, r⟩)).filter
        (fun p => exceptOk (itemOutcome decode p directory outdir width height)) ∧
    (resize_dir decode fs tree directory outdir recursive width height ext np
        response).failed =
      ((enumerate tree recursive ext).map (fun r => joinpath directory ⟨false, r⟩)).filterMap
        (fun p =>
          match itemOutcome decode p directory outdir width height with
          | .error e => some (p, e)
          | .ok _ => none) ∧
    (resize_dir decode fs tree directory outdir recursive width height ext np
        response).succeeded.length +
      (resize_dir decode fs tree directory outdir recursive width height ext np
        response).failed.length = (enumerate tree recursive ext).length ∧
    (resize_dir decode fs tree directory outdir recursive width height ext np
        response).printed = [countMsg ((enumerate tree recursive ext).length), tookMsg] ∧
    mainExitCode (.ranDir (resize_dir decode fs tree directory outdir recursive width height
      ext np response)) = 0 := by
  have houts := runPool_outcomes decode directory outdir width height np
    ((enumerate tree recursive ext).map (fun r => joinpath directory ⟨false, r⟩)) fs
  have hlen := runPool_len decode directory outdir width height np
    ((enumerate tree recursive ext).map (fun r => joinpath directory ⟨false, r⟩)) fs
  rw [resize_dir_proceed decode fs tree directory outdir recursive width height ext np
    response hc]
  exact ⟨houts.1, houts.2, by simpa using hlen, rfl, rfl⟩

/-- C2 amended witness: the amended theorem applied at the concrete
one-corrupt-among-two batch. -/
theorem C2_amended_silent_failure_isolation_witness :
    (resize_dir demoDecode demoFS [["a.jpg"], ["b.jpg"]] ⟨true, ["in"]⟩ ⟨true, ["out"]⟩
        false (some 100) none "jpg" false "y").succeeded =
      ((enumerate [["a.jpg"], ["b.jpg"]] false "jpg").map
        (fun r => joinpath ⟨true, ["in"]⟩ ⟨false, r⟩)).filter
        (fun p => exceptOk (itemOutcome demoDecode p ⟨true, ["in"]⟩ ⟨true, ["out"]⟩
          (some 100) none)) ∧
    (resize_dir demoDecode demoFS [["a.jpg"], ["b.jpg"]] ⟨true, ["in"]⟩ ⟨true, ["out"]⟩
        false (some 100) none "jpg" false "y").failed =
      ((enumerate [["a.jpg"], ["b.jpg"]] false "jpg").map
        (fun r => joinpath ⟨true, ["in"]⟩ ⟨false, r⟩)).filterMap
        (fun p =>
          match itemOutcome demoDecode p ⟨true, ["in"]⟩ ⟨true, ["out"]⟩ (some 100) none with
          | .error e => some (p, e)
          | .ok _ => none) ∧
    (resize_dir demoDecode demoFS [["a.jpg"], ["b.jpg"]] ⟨true, ["in"]⟩ ⟨true, ["out"]⟩
        false (some 100) none "jpg" false "y").succeeded.length +
      (resize_dir demoDecode demoFS [["a.jpg"], ["b.jpg"]] ⟨true, ["in"]⟩ ⟨true, ["out"]⟩
        false (some 100) none "jpg" false "y").failed.length =
      (enumerate [["a.jpg"], ["b.jpg"]] false "jpg").length ∧
    (resize_dir demoDecode demoFS [["a.jpg"], ["b.jpg"]] ⟨true, ["in"]⟩ ⟨true, ["out"]⟩
        false (some 100) none "jpg" false "y").printed =
      [countMsg ((enumerate [["a.jpg"], ["b.jpg"]] false "jpg").length), tookMsg] ∧
    mainExitCode (.ranDir (resize_dir demoDecode demoFS [["a.jpg"], ["b.jpg"]]
      ⟨true, ["in"]⟩ ⟨true, ["out"]⟩ false (some 100) none "jpg" false "y")) = 0 :=
  C2_amended_silent_failure_isolation demoDecode demoFS [["a.jpg"], ["b.jpg"]]
    ⟨true, ["in"]⟩ ⟨true, ["out"]⟩ false (some 100) none "jpg" false "y" (by decide)

/-- C4: for every successfully processed work item the output is written to
`outputRoot` joined with the source path taken relative to `sourceRoot`
(mirroring the input's subdirectory structure), missing intermediate output
directories are created first, and directory creation is idempotent: when the
parent directory already exists nothing is created and no error is raised. -/
theorem C4_output_path_mirroring (decode : PyPath → Option PILImage) (fs : FS)
    (file indir outdir : PyPath) (width height : Option Int) (img : PILImage) (rel : PyPath)
    (ht : (truthy width || truthy height) = true)
    (hd : decode file = some img) (hr : relativeTo file indir = some rel)
    (hroot : rel.root = false) :
    (resize_image decode fs file indir outdir width height).1 =
      .ok (⟨outdir.root, outdir.parts ++ rel.parts⟩, runPolicy img (policyCall width height)) ∧
    (resize_image decode fs file indir outdir width height).2.files =
      fs.files ++
        [(⟨outdir.root, outdir.parts ++ rel.parts⟩, runPolicy img (policyCall width height))] ∧
    PyPath.parent ⟨outdir.root, outdir.parts ++ rel.parts⟩ ∈
      (resize_image decode fs file indir outdir width height).2.dirs ∧
    (PyPath.parent ⟨outdir.root, outdir.parts ++ rel.parts⟩ ∈ fs.dirs →
       (resize_image decode fs file indir outdir width height).2.dirs = fs.dirs) ∧
    (PyPath.parent ⟨outdir.root, outdir.parts ++ rel.parts⟩ ∉ fs.dirs →
       ∀ q ∈ ancestors (PyPath.parent ⟨outdir.root, outdir.parts ++ rel.parts⟩),
         q ∈ (resize_image decode fs file indir outdir width height).2.dirs) := by
  have hjoin : joinpath outdir rel = ⟨outdir.root, outdir.parts ++ rel.parts⟩ := by
    simp [joinpath, hroot]
  obtain ⟨fs1, hep, heq⟩ :=
    resize_image_ok decode fs file indir outdir width height img rel ht hd hr
  rw [hjoin] at hep heq
  refine ⟨by rw [heq], ?_, ?_, ?_, ?_⟩
  · rw [heq]
    show fs1.files ++ _ = fs.files ++ _
    rw [ensure_parent_files fs _ fs1 hep]
  · rw [heq]
    show PyPath.parent _ ∈ fs1.dirs
    exact ensure_parent_parent_mem fs _ fs1 hep
  · intro hm
    rw [heq]
    show fs1.dirs = fs.dirs
    have hex := ensure_parent_existing fs ⟨outdir.root, outdir.parts ++ rel.parts⟩ hm
    rw [hex] at hep
    injection hep with h2
    rw [← h2]
  · intro hm q hq
    rw [heq]
    show q ∈ fs1.dirs
    exact ensure_parent_ancestors_mem fs _ fs1 hm hep q hq

/-- C4 witness: the theorem applied at the concrete item `/in/a.jpg` with
source root `/in`, output root `/out` and width 100. -/
theorem C4_output_path_mirroring_witness :
    (resize_image demoDecode demoFS ⟨true, ["in", "a.jpg"]⟩ ⟨true, ["in"]⟩ ⟨true, ["out"]⟩
        (some 100) none).1 =
      .ok (⟨(⟨true, ["out"]⟩ : PyPath).root, (⟨true, ["out"]⟩ : PyPath).parts ++
          (⟨false, ["a.jpg"]⟩ : PyPath).parts⟩,
        runPolicy demoImg (policyCall (some 100) none)) ∧
    (resize_image demoDecode demoFS ⟨true, ["in", "a.jpg"]⟩ ⟨true, ["in"]⟩ ⟨true, ["out"]⟩
        (some 100) none).2.files =
      demoFS.files ++
        [(⟨(⟨true, ["out"]⟩ : PyPath).root, (⟨true, ["out"]⟩ : PyPath).parts ++
            (⟨false, ["a.jpg"]⟩ : PyPath).parts⟩,
          runPolicy demoImg (policyCall (some 100) none))] ∧
    PyPath.parent ⟨(⟨true, ["out"]⟩ : PyPath).root, (⟨true, ["out"]⟩ : PyPath).parts ++
        (⟨false, ["a.jpg"]⟩ : PyPath).parts⟩ ∈
      (resize_image demoDecode demoFS ⟨true, ["in", "a.jpg"]⟩ ⟨true, ["in"]⟩ ⟨true, ["out"]⟩
        (some 100) none).2.dirs ∧
    (PyPath.parent ⟨(⟨true, ["out"]⟩ : PyPath).root, (⟨true, ["out"]⟩ : PyPath).parts ++
        (⟨false, ["a.jpg"]⟩ : PyPath).parts⟩ ∈ demoFS.dirs →
      (resize_image demoDecode demoFS ⟨true, ["in", "a.jpg"]⟩ ⟨true, ["in"]⟩ ⟨true, ["out"]⟩
        (some 100) none).2.dirs = demoFS.dirs) ∧
    (PyPath.parent ⟨(⟨true, ["out"]⟩ : PyPath).root, (⟨true, ["out"]⟩ : PyPath).parts ++
        (⟨false, ["a.jpg"]⟩ : PyPath).parts⟩ ∉ demoFS.dirs →
      ∀ q ∈ ancestors (PyPath.parent ⟨(⟨true, ["out"]⟩ : PyPath).root,
          (⟨true, ["out"]⟩ : PyPath).parts ++ (⟨false, ["a.jpg"]⟩ : PyPath).parts⟩),
        q ∈ (resize_image demoDecode demoFS ⟨true, ["in", "a.jpg"]⟩ ⟨true, ["in"]⟩
          ⟨true, ["out"]⟩ (some 100) none).2.dirs) :=
  C4_output_path_mirroring demoDecode demoFS ⟨true, ["in", "a.jpg"]⟩ ⟨true, ["in"]⟩
    ⟨true, ["out"]⟩ (some 100) none demoImg ⟨false, ["a.jpg"]⟩ (by decide) (by decide)
    (by decide) (by decide)

/-- C5 counterexample: with the extension string `x/y`, the non-recursive
pattern `*.x/y` is a two-component glob, so non-recursive enumeration returns
the file `y` from inside the subdirectory `a.x` — a path of depth 2, not a
direct child — contradicting the claim's quantification over every extension
string. -/
theorem C5_counterexample :
    enumerate [["a.x", "y"]] false "x/y" = [["a.x", "y"]] ∧
    (["a.x", "y"] : List String).length = 2 := by
  decide

/-- C5 amended: for every extension string containing no path separator `/`
and no glob metacharacters (`*`, `?`, `[`), non-recursive enumeration returns
exactly the files directly under the directory whose name case-sensitively
ends in `.` + ext — never a file from a subdirectory — and recursive
enumeration returns exactly the files with that suffix at any depth. -/
theorem C5_amended_enumeration (tree : List (List String)) (ext : String)
    (hext : extOk ext = true) :
    (∀ p, p ∈ enumerate tree false ext ↔
       p ∈ tree ∧ ∃ name, p = [name] ∧ ('.' :: ext.toList) <:+ name.toList) ∧
    (∀ p, p ∈ enumerate tree true ext ↔
       p ∈ tree ∧ ∃ pre name, p = pre ++ [name] ∧ ('.' :: ext.toList) <:+ name.toList) :=
  ⟨enumerate_mem_false tree ext hext, enumerate_mem_true tree ext hext⟩

/-- C5 amended witness: the characterization applied to a concrete tree with
extension `jpg`, at a direct child and at a nested file. -/
theorem C5_amended_enumeration_witness :
    extOk "jpg" = true ∧
    (["a.jpg"] ∈ enumerate [["a.jpg"], ["sub", "b.jpg"]] false "jpg" ↔
      ["a.jpg"] ∈ [["a.jpg"], ["sub", "b.jpg"]] ∧
        ∃ name, ["a.jpg"] = [name] ∧ ('.' :: "jpg".toList) <:+ name.toList) ∧
    (["sub", "b.jpg"] ∈ enumerate [["a.jpg"], ["sub", "b.jpg"]] true "jpg" ↔
      ["sub", "b.jpg"] ∈ [["a.jpg"], ["sub", "b.jpg"]] ∧
        ∃ pre name, ["sub", "b.jpg"] = pre ++ [name] ∧ ('.' :: "jpg".toList) <:+ name.toList) :=
  ⟨by decide,
   (C5_amended_enumeration [["a.jpg"], ["sub", "b.jpg"]] "jpg" (by decide)).1 ["a.jpg"],
   (C5_amended_enumeration [["a.jpg"], ["sub", "b.jpg"]] "jpg" (by decide)).2 ["sub", "b.jpg"]⟩

/-- C10 counterexample: in single-file mode with working directory `/home/u`,
the relative path `../a.jpg` is not located beneath the working directory,
yet `resize_image` raises no error and writes `/out/../a.jpg`; conversely the
absolute path `/home/u/b.jpg` is beneath the working directory, yet
`relative_to(Path('.'))` raises `ValueError`.  Both contradict the claim. -/
theorem C10_counterexample :
    locatedBeneath ["home", "u"] ⟨false, ["..", "a.jpg"]⟩ = false ∧
    pyMain demoDecode demoFS []
        ⟨some 10, none, none, some ⟨false, ["..", "a.jpg"]⟩, false, "jpg", ⟨true, ["out"]⟩,
          false⟩ "y" =
      .ranFile (resize_image demoDecode demoFS ⟨false, ["..", "a.jpg"]⟩ ⟨false, []⟩
        ⟨true, ["out"]⟩ (some 10) none) ∧
    (resize_image demoDecode demoFS ⟨false, ["..", "a.jpg"]⟩ ⟨false, []⟩ ⟨true, ["out"]⟩
        (some 10) none).1 =
      .ok (⟨true, ["out", "..", "a.jpg"]⟩, resize_width demoImg 10) ∧
    (resize_image demoDecode demoFS ⟨false, ["..", "a.jpg"]⟩ ⟨false, []⟩ ⟨true, ["out"]⟩
        (some 10) none).2.files =
      [(⟨true, ["out", "..", "a.jpg"]⟩, resize_width demoImg 10)] ∧
    locatedBeneath ["home", "u"] ⟨true, ["home", "u", "b.jpg"]⟩ = true ∧
    (resize_image demoDecode demoFS ⟨true, ["home", "u", "b.jpg"]⟩ ⟨false, []⟩ ⟨true, ["out"]⟩
        (some 10) none) = (.error .valueError, demoFS) := by
  decide

/-- C10 amended: in single-file mode the source root is `Path('.')`, whose
lexical `relative_to` succeeds exactly on syntactically relative paths and
returns them unchanged: the output path is outputRoot joined with the given
path as written (even when `..` components make it escape the working
directory), while every absolute path — beneath the working directory or not
— raises `ValueError` from the relative-path computation and no output file
is written. -/
theorem C10_amended_single_file_root (decode : PyPath → Option PILImage) (fs : FS)
    (tree : List (List String)) (args : Args) (response : String) (f : PyPath) (img : PILImage)
    (hfile : args.file = some f) (hdir : args.dir = none)
    (ht : (truthy args.width || truthy args.height) = true)
    (hd : decode f = some img) :
    (f.root = true →
       pyMain decode fs tree args response = .ranFile (.error .valueError, fs)) ∧
    (f.root = false →
       ∃ fs2, pyMain decode fs tree args response =
           .ranFile (.ok (⟨args.outdir.root, args.outdir.parts ++ f.parts⟩,
             runPolicy img (policyCall args.width args.height)), fs2) ∧
         fs2.files = fs.files ++ [(⟨args.outdir.root, args.outdir.parts ++ f.parts⟩,
           runPolicy img (policyCall args.width args.height))]) := by
  have hred : pyMain decode fs tree args response =
      .ranFile (resize_image decode fs f ⟨false, []⟩ args.outdir args.width args.height) := by
    simp [pyMain, ht, hdir, hfile]
  constructor
  · intro hroot
    have hrel : relativeTo f ⟨false, []⟩ = none := by
      simp [relativeTo, allParts, hroot]
    rw [hred]
    simp [resize_image, ht, hd, hrel]
  · intro hroot
    have hrel : relativeTo f ⟨false, []⟩ = some f := by
      cases f with
      | mk r parts =>
        simp at hroot
        subst hroot
        simp [relativeTo, allParts]
    obtain ⟨fs1, hep, heq⟩ :=
      resize_image_ok decode fs f ⟨false, []⟩ args.outdir args.width args.height img f
        ht hd hrel
    have hjoin : joinpath args.outdir f = ⟨args.outdir.root, args.outdir.parts ++ f.parts⟩ := by
      simp [joinpath, hroot]
    rw [hjoin] at heq
    refine ⟨_, by rw [hred, heq], ?_⟩
    show fs1.files ++ _ = fs.files ++ _
    rw [ensure_parent_files fs _ fs1 hep]

/-- C10 amended witness: the theorem applied at the relative path
`sub/a.jpg`, whose output lands at `/out/sub/a.jpg`. -/
theorem C10_amended_single_file_root_witness :
    ((⟨false, ["sub", "a.jpg"]⟩ : PyPath).root = true →
       pyMain demoDecode demoFS []
           ⟨some 10, none, none, some ⟨false, ["sub", "a.jpg"]⟩, false, "jpg",
             ⟨true, ["out"]⟩, false⟩ "y" =
         .ranFile (.error .valueError, demoFS)) ∧
    ((⟨false, ["sub", "a.jpg"]⟩ : PyPath).root = false →
       ∃ fs2, pyMain demoDecode demoFS []
           ⟨some 10, none, none, some ⟨false, ["sub", "a.jpg"]⟩, false, "jpg",
             ⟨true, ["out"]⟩, false⟩ "y" =
           .ranFile (.ok (⟨(⟨true, ["out"]⟩ : PyPath).root, (⟨true, ["out"]⟩ : PyPath).parts ++
               (⟨false, ["sub", "a.jpg"]⟩ : PyPath).parts⟩,
             runPolicy demoImg (policyCall (some 10) none)), fs2) ∧
         fs2.files = demoFS.files ++
           [(⟨(⟨true, ["out"]⟩ : PyPath).root, (⟨true, ["out"]⟩ : PyPath).parts ++
               (⟨false, ["sub", "a.jpg"]⟩ : PyPath).parts⟩,
             runPolicy demoImg (policyCall (some 10) none))]) :=
  C10_amended_single_file_root demoDecode demoFS []
    ⟨some 10, none, none, some ⟨false, ["sub", "a.jpg"]⟩, false, "jpg", ⟨true, ["out"]⟩, false⟩
    "y" ⟨false, ["sub", "a.jpg"]⟩ demoImg rfl rfl (by decide) (by decide)

end ImageResizer
